import Mathlib

/-!
Verification of the transport/protocol core of the scfspace client.

The code under scrutiny is the `Protocol` class (src/ts/Font.ts, lines
85-236 of the concatenated source): a WebSocket-backed packet channel with
an outbound queue, a per-tag handler registry, and a round-trip
clock-synchronization algorithm.

Modelling conventions:
- JavaScript numbers that hold timestamps are integers in practice
  (`Date.now()` returns an integer; `| 0` converts to a signed 32-bit
  integer).  We model them as `Int`, with `asInt32` embedding the JS
  `| 0` (ToInt32) conversion.
- `Math.floor(serverTime - clientTime0 - 0.6 * rtt)` is modelled over the
  exact rationals: since `rtt` is an integer, the expression equals the
  integer floor division `(5 * (serverTime - clientTime0) - 3 * rtt) / 5`
  (Lean `Int` division by a positive constant is floor division).
- `JSON.stringify` / `JSON.parse` are modelled as the identity on an
  inductive value type `Val` (the spec only requires a lossless codec);
  a frame whose parse fails is the `Frame.malformed` constructor.
- The `WebSocket` collaborator is modelled by its `readyState` field and
  a log `sentPackets` of the packets handed to `socket.send`.
- `this.eventHandler()` invocations and `Timer.clearInterval` calls are
  recorded in the logs `eventCalls` and `clearedIntervals`.
- The handler registry `Map<number, Array<PacketHandler>>` is modelled
  separately as a function `Int → Option (List H)`, generic in the
  handler representation `H`, because handlers are arbitrary closures.
- `simulation` is modelled by the value its `getTimeMillis()` reads at
  the moment of interest (`Option Int`; `none` when not yet attached).
-/

/-- JS ToInt32 conversion, the `num | 0` in `asInt32` (source line 214):
reduce modulo 2^32 into the signed range [-2^31, 2^31). -/
def asInt32 (n : Int) : Int := (n + 2147483648) % 4294967296 - 2147483648

/-- Wire values: JSON scalars plus an opaque blob standing for nested
objects (login data, weapon data) whose structure the claims never touch. -/
inductive Val where
  | num (n : Int)
  | str (s : String)
  | bool (b : Bool)
  | blob (s : String)
deriving DecidableEq, Repr

/-- 2D vector (src/ts/math/Vector.ts); the claims only read the `x` and
`y` components, modelled as integers. -/
structure Vec2 where
  x : Int
  y : Int
deriving DecidableEq, Repr

/-- The readyState of the underlying WebSocket. -/
inductive ReadyState where
  | connecting
  | opened
  | closing
  | closed
deriving DecidableEq, Repr

/-- State of a `Protocol` instance (src/ts/Font.ts lines 85-106), plus
observation logs for the effects it performs on its collaborators. -/
structure ProtocolState where
  readyState : ReadyState
  packetQueue : List (List Val)
  eventHandler : Nat
  syncTimer : Nat
  serverTimeDelta : Int
  roundTripTime : Int
  simulation : Option Int
  sentPackets : List (List Val)
  eventCalls : List Nat
  clearedIntervals : List Nat
deriving DecidableEq, Repr

/-- State right after the constructor (lines 98-106): field initializers
give an empty queue, the no-op event handler (id 0), timer id 0, zero
clock estimates, and no simulation; the socket starts connecting. -/
def protoInit : ProtocolState :=
  { readyState := ReadyState.connecting
    packetQueue := []
    eventHandler := 0
    syncTimer := 0
    serverTimeDelta := 0
    roundTripTime := 0
    simulation := none
    sentPackets := []
    eventCalls := []
    clearedIntervals := [] }

/-- `send` (lines 205-212): stringify the message; if the socket is not
OPEN, push onto `packetQueue`, else hand it to `socket.send`. -/
def send (st : ProtocolState) (data : List Val) : ProtocolState :=
  if st.readyState = ReadyState.opened then
    { st with sentPackets := st.sentPackets ++ [data] }
  else
    { st with packetQueue := st.packetQueue ++ [data] }

/-- `onOpen` (lines 175-178): forward every queued packet to
`socket.send` in array order, then clear the queue. -/
def onOpen (st : ProtocolState) : ProtocolState :=
  { st with sentPackets := st.sentPackets ++ st.packetQueue
            packetQueue := [] }

/-- `onClose` (lines 180-185): clear the sync interval, zero the timer
id, clear the outbound queue, and invoke the registered event handler. -/
def onClose (st : ProtocolState) : ProtocolState :=
  { st with clearedIntervals := st.clearedIntervals ++ [st.syncTimer]
            syncTimer := 0
            packetQueue := []
            eventCalls := st.eventCalls ++ [st.eventHandler] }

/-- `registerEventHandler` (lines 124-126): overwrite the single
`eventHandler` slot with the new callback. -/
def registerEventHandler (st : ProtocolState) (cb : Nat) : ProtocolState :=
  { st with eventHandler := cb }

/-- `getMillisSinceServerTime` (lines 108-118): guard on the unset
simulation and return 0; otherwise two wraparound-corrected
subtractions translate a server timestamp to local elapsed millis. -/
def getMillisSinceServerTime (st : ProtocolState) (timestamp : Int) : Int :=
  match st.simulation with
  | none => 0
  | some timeMillis =>
    let diff1 := timestamp - st.serverTimeDelta
    let diff1c := if diff1 < 0 then diff1 + 4294967296 else diff1
    let diff2 := asInt32 timeMillis - diff1c
    if diff2 < 0 then diff2 + 4294967296 else diff2

/-- `remoteTime` (line 216): current synchronized remote time, or 0 when
no simulation is attached. -/
def remoteTime (st : ProtocolState) : Int :=
  match st.simulation with
  | none => 0
  | some timeMillis => asInt32 (timeMillis + st.serverTimeDelta)

/-- Lines 229-230: `rtt = asInt32(Date.now()) - clientTime0`, plus 2^32
when negative.  `now` is the raw local clock at receipt. -/
def clockSyncRtt (now clientTime0 : Int) : Int :=
  let rtt := asInt32 now - clientTime0
  if rtt < 0 then rtt + 4294967296 else rtt

/-- Lines 233-234: `Math.floor(serverTime - clientTime0 - 0.6 * rtt)`,
plus 2^32 when negative; the floor over exact rationals is the integer
floor division by 5 (see the module comment). -/
def clockSyncDelta (clientTime0 serverTime rtt : Int) : Int :=
  let d := (5 * (serverTime - clientTime0) - 3 * rtt) / 5
  if d < 0 then d + 4294967296 else d

/-- `onClockSyncReply` (lines 226-235): store the corrected round-trip
time and the corrected server-time delta. -/
def onClockSyncReply (now clientTime0 serverTime : Int)
    (st : ProtocolState) : ProtocolState :=
  let rtt := clockSyncRtt now clientTime0
  { st with roundTripTime := rtt
            serverTimeDelta := clockSyncDelta clientTime0 serverTime rtt }

/-- `startGame` (lines 139-143): attach the simulation, send the
START_GAME packet (tag 2) stamped with `asInt32(Date.now())`, and record
the interval timer id returned by `Timer.setInterval`. -/
def startGame (st : ProtocolState) (simTime : Int) (ship : Int)
    (now : Int) (timerId : Nat) : ProtocolState :=
  let st1 := { st with simulation := some simTime }
  let st2 := send st1 [Val.num 2, Val.num ship, Val.num (asInt32 now)]
  { st2 with syncTimer := timerId }

/-- The POSITION packet built by `sendPosition` (lines 145-149): tag 3,
then `remoteTime()`, direction, position, velocity, isSafe, and the
optional weapon data appended last. -/
def positionPacket (st : ProtocolState) (direction : Int)
    (position velocity : Vec2) (isSafe : Bool)
    (weaponData : Option Val) : List Val :=
  let packet := [Val.num 3, Val.num (remoteTime st), Val.num direction,
                 Val.num position.x, Val.num position.y,
                 Val.num velocity.x, Val.num velocity.y, Val.bool isSafe]
  match weaponData with
  | some w => packet ++ [w]
  | none => packet

/-- `sendPosition` forwards the built packet to `send`. -/
def sendPosition (st : ProtocolState) (direction : Int)
    (position velocity : Vec2) (isSafe : Bool)
    (weaponData : Option Val) : ProtocolState :=
  send st (positionPacket st direction position velocity isSafe weaponData)

/-- The FLAG_CAPTURED packet built by `sendFlagCaptured` (lines 171-173):
tag 11, then `remoteTime()`, then the flag id. -/
def flagCapturedPacket (st : ProtocolState) (id : Int) : List Val :=
  [Val.num 11, Val.num (remoteTime st), Val.num id]

/-- `sendFlagCaptured` forwards the built packet to `send`. -/
def sendFlagCaptured (st : ProtocolState) (id : Int) : ProtocolState :=
  send st (flagCapturedPacket st id)

/-- The socket lifecycle events wired up in the constructor (lines
100-102): `open` is handled by `onOpen`; `error` and `close` are both
handled by `onClose`. -/
inductive SocketEvent where
  | openEvt
  | errorEvt
  | closeEvt
deriving DecidableEq, Repr

/-- True for the events the constructor wires to `onClose`. -/
def SocketEvent.isCloseLike : SocketEvent → Bool
  | SocketEvent.errorEvt => true
  | SocketEvent.closeEvt => true
  | SocketEvent.openEvt => false

/-- Deliver one socket event: the socket updates its own readyState, then
the listener registered in the constructor runs. -/
def handleEvent (st : ProtocolState) : SocketEvent → ProtocolState
  | SocketEvent.openEvt => onOpen { st with readyState := ReadyState.opened }
  | SocketEvent.errorEvt => onClose { st with readyState := ReadyState.closed }
  | SocketEvent.closeEvt => onClose { st with readyState := ReadyState.closed }

/-- Deliver a sequence of socket events in order. -/
def runEvents (st : ProtocolState) (evts : List SocketEvent) : ProtocolState :=
  evts.foldl handleEvent st

/-- An inbound frame: either `JSON.parse` throws (`malformed`) or it
yields an array of values. -/
inductive Frame where
  | malformed (raw : String)
  | parsed (v : List Val)

/-- `registerPacketHandler` (lines 128-133) on the handler registry
`Map<number, Array<PacketHandler>>`, modelled as a partial map from tag
to handler list, generic in the handler representation `H`: create an
empty entry when absent, then push the callback. -/
def registerPacketHandler {H : Type} (m : Int → Option (List H))
    (tag : Int) (cb : H) : Int → Option (List H) :=
  fun t => if t = tag then some ((m tag).getD [] ++ [cb]) else m t

/-- `onMessage` (lines 187-203), returning the ordered list of handler
invocations (each paired with `obj.slice(1)`) and the number of warnings
logged: a parse failure logs one error and returns; a frame whose head
is not a registered numeric tag logs one warning and returns; otherwise
every handler registered for the tag is invoked in array order with the
remaining payload. -/
def onMessage {H : Type} (m : Int → Option (List H)) :
    Frame → List (H × List Val) × Nat
  | Frame.malformed _ => ([], 1)
  | Frame.parsed [] => ([], 1)
  | Frame.parsed (tagv :: rest) =>
    match tagv with
    | Val.num t =>
      match m t with
      | none => ([], 1)
      | some hs => (hs.map fun h => (h, rest), 0)
    | _ => ([], 1)

/-- Run `onMessage` and then apply the invoked handlers, in order, to the
protocol state: state mutation inside `onMessage` happens only through
handler bodies, so this wrapper makes "no state change" statable. -/
def processFrame {H : Type} (st : ProtocolState)
    (apply : ProtocolState → H → List Val → ProtocolState)
    (m : Int → Option (List H)) (f : Frame) : ProtocolState × Nat :=
  let r := onMessage m f
  (r.1.foldl (fun s hp => apply s hp.1 hp.2) st, r.2)

/-- The stored round-trip time is congruent to `now - t0` modulo 2^32 and
lies in [0, 2^32) whenever `t0` is an echoed 32-bit value. -/
lemma clockSyncRtt_spec (now t0 : Int)
    (hlo : -2147483648 ≤ t0) (hhi : t0 < 2147483648) :
    clockSyncRtt now t0 % 4294967296 = (now - t0) % 4294967296
    ∧ 0 ≤ clockSyncRtt now t0 ∧ clockSyncRtt now t0 < 4294967296 := by
  simp only [clockSyncRtt, asInt32]
  split_ifs <;> refine ⟨by omega, by omega, by omega⟩

/-- C1: on receiving a clock-sync reply carrying (t0, serverTime), the
handler stores rtt = current local 32-bit time minus t0, corrected by
adding 2^32 if negative (hence congruent to now - t0 modulo 2^32 and in
[0, 2^32) when t0 is an echoed 32-bit value), and stores
serverTimeDelta = floor(serverTime - t0 - 0.6 * rtt), corrected by
adding 2^32 if negative; in particular a probe sent at local time 1000
answered with serverTime 5000 at local time 1200 stores rtt 200 and
serverTimeDelta 3880. -/
theorem c1_clock_sync_reply (now t0 s : Int) (st : ProtocolState)
    (hlo : -2147483648 ≤ t0) (hhi : t0 < 2147483648) :
    ((onClockSyncReply now t0 s st).roundTripTime % 4294967296
        = (now - t0) % 4294967296
      ∧ 0 ≤ (onClockSyncReply now t0 s st).roundTripTime
      ∧ (onClockSyncReply now t0 s st).roundTripTime < 4294967296
      ∧ (onClockSyncReply now t0 s st).serverTimeDelta
          = clockSyncDelta t0 s (clockSyncRtt now t0))
    ∧ (onClockSyncReply 1200 1000 5000 protoInit).roundTripTime = 200
    ∧ (onClockSyncReply 1200 1000 5000 protoInit).serverTimeDelta = 3880 := by
  have hp : (onClockSyncReply now t0 s st).roundTripTime
      = clockSyncRtt now t0 := rfl
  have hs := clockSyncRtt_spec now t0 hlo hhi
  exact ⟨⟨by rw [hp]; exact hs.1, by rw [hp]; exact hs.2.1,
          by rw [hp]; exact hs.2.2, rfl⟩, by decide, by decide⟩

/-- C1 witness: the theorem applied at the concrete probe of the spec
scenario. -/
theorem c1_clock_sync_reply_witness :
    ((onClockSyncReply 1200 1000 5000 protoInit).roundTripTime % 4294967296
        = (1200 - 1000) % 4294967296
      ∧ 0 ≤ (onClockSyncReply 1200 1000 5000 protoInit).roundTripTime
      ∧ (onClockSyncReply 1200 1000 5000 protoInit).roundTripTime < 4294967296
      ∧ (onClockSyncReply 1200 1000 5000 protoInit).serverTimeDelta
          = clockSyncDelta 1000 5000 (clockSyncRtt 1200 1000))
    ∧ (onClockSyncReply 1200 1000 5000 protoInit).roundTripTime = 200
    ∧ (onClockSyncReply 1200 1000 5000 protoInit).serverTimeDelta = 3880 :=
  c1_clock_sync_reply 1200 1000 5000 protoInit (by decide) (by decide)

/-- C2 counterexample: with every input a wraparound 32-bit timestamp
value (t0 = 2147483647 and serverTime = 0 in [0, 2^32), resulting rtt =
4294967295 in [0, 2^32)), the stored serverTimeDelta is -429496728,
outside [0, 2^32): the single +2^32 correction is insufficient when the
raw estimate serverTime - t0 - 0.6 * rtt drops below -2^32. -/
theorem c2_delta_range_counterexample :
    clockSyncRtt 2147483646 2147483647 = 4294967295
    ∧ (onClockSyncReply 2147483646 2147483647 0 protoInit).roundTripTime
        = 4294967295
    ∧ (onClockSyncReply 2147483646 2147483647 0 protoInit).serverTimeDelta
        = -429496728
    ∧ (0 ≤ (onClockSyncReply 2147483646 2147483647 0 protoInit).serverTimeDelta
        → False) := by decide

/-- C2 amended: for t0 and serverTime in [0, 2^32) and a nonnegative
resulting rtt, the stored serverTimeDelta lies in [0, 2^32) provided the
floor of the raw estimate serverTime - t0 - 0.6 * rtt is at least
-2^32 (so that the single +2^32 correction suffices). -/
theorem c2_delta_range_amended (now t0 s : Int) (st : ProtocolState)
    (ht0 : 0 ≤ t0) (ht0u : t0 < 4294967296)
    (hs : 0 ≤ s) (hsu : s < 4294967296)
    (hrtt : 0 ≤ clockSyncRtt now t0)
    (hfloor : -4294967296 ≤ (5 * (s - t0) - 3 * clockSyncRtt now t0) / 5) :
    0 ≤ (onClockSyncReply now t0 s st).serverTimeDelta
    ∧ (onClockSyncReply now t0 s st).serverTimeDelta < 4294967296 := by
  have hp : (onClockSyncReply now t0 s st).serverTimeDelta
      = clockSyncDelta t0 s (clockSyncRtt now t0) := rfl
  rw [hp]
  simp only [clockSyncDelta]
  split_ifs <;> omega

/-- C2 amended witness: the amended theorem applied at the concrete
probe of the spec scenario. -/
theorem c2_delta_range_amended_witness :
    0 ≤ (onClockSyncReply 1200 1000 5000 protoInit).serverTimeDelta
    ∧ (onClockSyncReply 1200 1000 5000 protoInit).serverTimeDelta
        < 4294967296 :=
  c2_delta_range_amended 1200 1000 5000 protoInit (by decide) (by decide)
    (by decide) (by decide) (by decide) (by decide)

/-- C5 counterexample: querying synchronized time before any clock-sync
estimate (no simulation attached, as after construction) does not fail:
both queries return the ordinary in-range value 0, indistinguishable
from a legitimate zero result, so the contract violation is silently
tolerated rather than stopped by an assertion. -/
theorem c5_assertion_counterexample :
    getMillisSinceServerTime protoInit 1234 = 0
    ∧ remoteTime protoInit = 0 := by decide

/-- C5 amended: querying synchronized time with no simulation attached
is silently tolerated: getMillisSinceServerTime returns 0 for every
timestamp and remoteTime returns 0; no assertion or exception path
exists in either function. -/
theorem c5_amended_silent_default (st : ProtocolState) (ts : Int)
    (h : st.simulation = none) :
    getMillisSinceServerTime st ts = 0 ∧ remoteTime st = 0 := by
  simp [getMillisSinceServerTime, remoteTime, h]

/-- C5 amended witness: the amended theorem applied to the freshly
constructed protocol state. -/
theorem c5_amended_silent_default_witness :
    getMillisSinceServerTime protoInit 77 = 0 ∧ remoteTime protoInit = 0 :=
  c5_amended_silent_default protoInit 77 rfl

/-- C8: translating a server timestamp back through the stored delta
reproduces the elapsed local time modulo 2^32: if the remote time R is
stamped while the local simulation clock reads L, then evaluating
getMillisSinceServerTime on R in a later state whose simulation clock
reads Lq (same stored delta) yields a value congruent to Lq - L
modulo 2^32. -/
theorem c8_delta_roundtrip (st stq : ProtocolState) (L Lq : Int)
    (h1 : st.simulation = some L) (h2 : stq.simulation = some Lq)
    (h3 : stq.serverTimeDelta = st.serverTimeDelta) :
    getMillisSinceServerTime stq (remoteTime st) % 4294967296
      = (Lq - L) % 4294967296 := by
  simp only [getMillisSinceServerTime, remoteTime, asInt32, h1, h2, h3]
  split_ifs <;> omega

/-- A concrete synchronized state used by witnesses: simulation clock at
1200, stored delta 3880. -/
def stampState : ProtocolState :=
  { protoInit with simulation := some 1200, serverTimeDelta := 3880 }

/-- A later concrete state with the same stored delta: simulation clock
at 2200. -/
def queryState : ProtocolState :=
  { protoInit with simulation := some 2200, serverTimeDelta := 3880 }

/-- C8 witness: the round-trip theorem applied at a concrete pair of
states sharing the delta 3880, with stamping time 1200 and query time
2200. -/
theorem c8_delta_roundtrip_witness :
    getMillisSinceServerTime queryState (remoteTime stampState) % 4294967296
      = (2200 - 1200) % 4294967296 :=
  c8_delta_roundtrip stampState queryState 1200 2200 rfl rfl rfl

/-- C9: with a simulation attached whose clock reads L, the outbound
POSITION packet and the outbound FLAG_CAPTURED packet both carry, right
after the type tag, the synchronized remote time asInt32(L + delta) --
the local simulation time plus serverTimeDelta reduced to a 32-bit
integer -- and not the raw local time. -/
theorem c9_outbound_remote_time (st : ProtocolState) (L : Int)
    (h : st.simulation = some L) (direction : Int) (p v : Vec2)
    (isSafe : Bool) (w : Option Val) (flagId : Int) :
    (∃ rest, positionPacket st direction p v isSafe w
        = Val.num 3 :: Val.num (asInt32 (L + st.serverTimeDelta)) :: rest)
    ∧ flagCapturedPacket st flagId
        = [Val.num 11, Val.num (asInt32 (L + st.serverTimeDelta)),
           Val.num flagId] := by
  have hr : remoteTime st = asInt32 (L + st.serverTimeDelta) := by
    simp [remoteTime, h]
  refine ⟨?_, by simp [flagCapturedPacket, hr]⟩
  cases w with
  | none =>
    refine ⟨[Val.num direction, Val.num p.x, Val.num p.y,
             Val.num v.x, Val.num v.y, Val.bool isSafe], ?_⟩
    simp [positionPacket, hr]
  | some wv =>
    refine ⟨[Val.num direction, Val.num p.x, Val.num p.y,
             Val.num v.x, Val.num v.y, Val.bool isSafe, wv], ?_⟩
    simp [positionPacket, hr]

/-- C9 witness: the stamping theorem applied at a concrete state with
simulation clock 1200 and delta 3880. -/
theorem c9_outbound_remote_time_witness :
    (∃ rest, positionPacket stampState 4 ⟨10, 20⟩ ⟨1, 2⟩ true none
        = Val.num 3
          :: Val.num (asInt32 (1200 + stampState.serverTimeDelta)) :: rest)
    ∧ flagCapturedPacket stampState 6
        = [Val.num 11, Val.num (asInt32 (1200 + stampState.serverTimeDelta)),
           Val.num 6] :=
  c9_outbound_remote_time stampState 1200 rfl 4 ⟨10, 20⟩ ⟨1, 2⟩ true none 6

/-- Folding `send` over a state whose socket is not OPEN only appends the
messages, in order, to the outbound queue. -/
lemma foldl_send_not_open (msgs : List (List Val)) (st : ProtocolState)
    (h : st.readyState ≠ ReadyState.opened) :
    msgs.foldl send st = { st with packetQueue := st.packetQueue ++ msgs } := by
  induction msgs generalizing st with
  | nil => simp
  | cons a as ih =>
    rw [List.foldl_cons]
    have hsend : send st a
        = { st with packetQueue := st.packetQueue ++ [a] } := by
      unfold send
      rw [if_neg h]
    rw [hsend, ih { st with packetQueue := st.packetQueue ++ [a] } h]
    simp

/-- C3: every message passed to send while the socket is not OPEN is
appended to the outbound queue (nothing reaches the transport); on the
transition to OPEN the queued messages are handed to the transport in
exactly the order they were sent, each exactly once, after which the
queue is empty and every subsequent send transmits immediately. -/
theorem c3_queue_fifo (st : ProtocolState) (msgs : List (List Val))
    (m : List Val) (h : st.readyState ≠ ReadyState.opened) :
    (msgs.foldl send st).sentPackets = st.sentPackets
    ∧ (msgs.foldl send st).packetQueue = st.packetQueue ++ msgs
    ∧ (handleEvent (msgs.foldl send st) SocketEvent.openEvt).sentPackets
        = st.sentPackets ++ (st.packetQueue ++ msgs)
    ∧ (handleEvent (msgs.foldl send st) SocketEvent.openEvt).packetQueue = []
    ∧ (send (handleEvent (msgs.foldl send st) SocketEvent.openEvt)
        m).sentPackets
        = st.sentPackets ++ (st.packetQueue ++ msgs) ++ [m]
    ∧ (send (handleEvent (msgs.foldl send st) SocketEvent.openEvt)
        m).packetQueue = [] := by
  rw [foldl_send_not_open msgs st h]
  refine ⟨rfl, rfl, ?_, ?_, ?_, ?_⟩ <;>
    simp [handleEvent, onOpen, send]

/-- C3 witness: the queueing theorem applied to the freshly constructed
(still connecting) state with two queued messages. -/
theorem c3_queue_fifo_witness :
    ([[Val.num 6, Val.str "hi"], [Val.num 7]].foldl send
        protoInit).sentPackets = protoInit.sentPackets
    ∧ ([[Val.num 6, Val.str "hi"], [Val.num 7]].foldl send
        protoInit).packetQueue
        = protoInit.packetQueue ++ [[Val.num 6, Val.str "hi"], [Val.num 7]]
    ∧ (handleEvent ([[Val.num 6, Val.str "hi"], [Val.num 7]].foldl send
        protoInit) SocketEvent.openEvt).sentPackets
        = protoInit.sentPackets ++ (protoInit.packetQueue
            ++ [[Val.num 6, Val.str "hi"], [Val.num 7]])
    ∧ (handleEvent ([[Val.num 6, Val.str "hi"], [Val.num 7]].foldl send
        protoInit) SocketEvent.openEvt).packetQueue = []
    ∧ (send (handleEvent ([[Val.num 6, Val.str "hi"], [Val.num 7]].foldl send
        protoInit) SocketEvent.openEvt) [Val.num 8]).sentPackets
        = protoInit.sentPackets ++ (protoInit.packetQueue
            ++ [[Val.num 6, Val.str "hi"], [Val.num 7]]) ++ [[Val.num 8]]
    ∧ (send (handleEvent ([[Val.num 6, Val.str "hi"], [Val.num 7]].foldl send
        protoInit) SocketEvent.openEvt) [Val.num 8]).packetQueue = [] :=
  c3_queue_fifo protoInit [[Val.num 6, Val.str "hi"], [Val.num 7]]
    [Val.num 8] (by decide)

/-- Each delivered socket event appends exactly one disconnect-callback
invocation when it is an error or close event, and none otherwise. -/
lemma runEvents_eventCalls (evts : List SocketEvent) (st : ProtocolState) :
    (runEvents st evts).eventCalls.length
      = st.eventCalls.length
        + (evts.filter SocketEvent.isCloseLike).length := by
  induction evts generalizing st with
  | nil => simp [runEvents]
  | cons e es ih =>
    have hstep : runEvents st (e :: es) = runEvents (handleEvent st e) es :=
      rfl
    rw [hstep, ih]
    cases e <;>
      simp [handleEvent, onOpen, onClose, SocketEvent.isCloseLike,
        List.filter] <;> omega

/-- Running an event trace splits along list append. -/
lemma runEvents_append (st : ProtocolState) (l1 l2 : List SocketEvent) :
    runEvents st (l1 ++ l2) = runEvents (runEvents st l1) l2 := by
  simp [runEvents, List.foldl_append]

/-- C4 counterexample: after registering disconnect callback 1, a socket
error followed by the standard close event (both wired to onClose by the
constructor) invokes the callback twice, so it is not invoked exactly
once over the lifetime of the instance. -/
theorem c4_counterexample_double_invoke :
    (runEvents (registerEventHandler protoInit 1)
        [SocketEvent.errorEvt, SocketEvent.closeEvt]).eventCalls = [1, 1]
    ∧ ((runEvents (registerEventHandler protoInit 1)
        [SocketEvent.errorEvt, SocketEvent.closeEvt]).eventCalls.length = 1
        → False) := by decide

/-- C4 amended: every error or close event clears the outbound queue,
cancels the periodic clock-sync timer, and invokes the registered
disconnect callback once; over a whole event trace the callback is
invoked exactly as many times as error-or-close events are delivered
(hence exactly once when exactly one such event occurs, but twice when
an error is followed by the standard close event). -/
theorem c4_amended_close_effects (st : ProtocolState)
    (evts : List SocketEvent) (e : SocketEvent)
    (h : e.isCloseLike = true) :
    (runEvents st (evts ++ [e])).packetQueue = []
    ∧ (runEvents st (evts ++ [e])).syncTimer = 0
    ∧ (runEvents st (evts ++ [e])).eventCalls.length
      = st.eventCalls.length
        + ((evts ++ [e]).filter SocketEvent.isCloseLike).length := by
  refine ⟨?_, ?_, runEvents_eventCalls _ _⟩ <;>
  · rw [runEvents_append]
    cases e with
    | openEvt => simp [SocketEvent.isCloseLike] at h
    | errorEvt => simp [runEvents, handleEvent, onClose]
    | closeEvt => simp [runEvents, handleEvent, onClose]

/-- C4 amended witness: the amended theorem applied to a started game
state that receives exactly one close event: the queue is cleared, the
timer cancelled, and the callback invoked exactly once. -/
theorem c4_amended_close_effects_witness :
    (runEvents (startGame (registerEventHandler protoInit 1) 900 2 1000 5)
        ([] ++ [SocketEvent.closeEvt])).packetQueue = []
    ∧ (runEvents (startGame (registerEventHandler protoInit 1) 900 2 1000 5)
        ([] ++ [SocketEvent.closeEvt])).syncTimer = 0
    ∧ (runEvents (startGame (registerEventHandler protoInit 1) 900 2 1000 5)
        ([] ++ [SocketEvent.closeEvt])).eventCalls.length
      = (startGame (registerEventHandler protoInit 1) 900 2 1000
          5).eventCalls.length
        + (([] ++ [SocketEvent.closeEvt]).filter
            SocketEvent.isCloseLike).length :=
  c4_amended_close_effects
    (startGame (registerEventHandler protoInit 1) 900 2 1000 5)
    [] SocketEvent.closeEvt (by decide)

/-- C10: registerEventHandler overwrites the single callback slot, so
after registering h1 and then h2 the stored callback is h2; the
subsequent close invokes exactly h2 once, and h1 (when distinct and not
already invoked earlier) is never invoked. -/
theorem c10_last_handler_wins (st : ProtocolState) (h1 h2 : Nat)
    (hne : h1 ≠ h2) (hnotin : h1 ∉ st.eventCalls) :
    (registerEventHandler (registerEventHandler st h1) h2).eventHandler = h2
    ∧ (onClose (registerEventHandler (registerEventHandler st h1)
        h2)).eventCalls = st.eventCalls ++ [h2]
    ∧ h1 ∉ (onClose (registerEventHandler (registerEventHandler st h1)
        h2)).eventCalls := by
  refine ⟨rfl, rfl, ?_⟩
  simp [onClose, registerEventHandler, hne, hnotin]

/-- C10 witness: the replacement theorem applied to the fresh state with
callbacks 1 then 2. -/
theorem c10_last_handler_wins_witness :
    (registerEventHandler (registerEventHandler protoInit 1)
        2).eventHandler = 2
    ∧ (onClose (registerEventHandler (registerEventHandler protoInit 1)
        2)).eventCalls = protoInit.eventCalls ++ [2]
    ∧ 1 ∉ (onClose (registerEventHandler (registerEventHandler protoInit 1)
        2)).eventCalls :=
  c10_last_handler_wins protoInit 1 2 (by decide) (by decide)

/-- C6: registering handlers h1 then h2 for the same tag and dispatching
one message with that tag invokes every handler registered for the tag
in registration order (any pre-existing handlers first, then h1, then
h2, sequentially, so h1 completes before h2 begins), each receiving the
payload with the leading type tag removed, and logs no warning. -/
theorem c6_fanout_order (H : Type) (m : Int → Option (List H))
    (tag : Int) (h1 h2 : H) (rest : List Val) :
    onMessage (registerPacketHandler (registerPacketHandler m tag h1) tag h2)
        (Frame.parsed (Val.num tag :: rest))
      = (((m tag).getD [] ++ [h1, h2]).map fun h => (h, rest), 0) := by
  simp [onMessage, registerPacketHandler]

/-- C6 witness: the fan-out theorem applied at an empty registry with
handlers 1 then 2 for tag 5 and payload [9]. -/
theorem c6_fanout_order_witness :
    onMessage
        (registerPacketHandler
          (registerPacketHandler (fun _ => (none : Option (List Nat))) 5 1)
          5 2)
        (Frame.parsed (Val.num 5 :: [Val.num 9]))
      = ([(1, [Val.num 9]), (2, [Val.num 9])], 0) :=
  c6_fanout_order Nat (fun _ => none) 5 1 2 [Val.num 9]

/-- C7: a frame that fails to deserialize is discarded with one local
warning, invoking no handler and leaving the protocol state unchanged;
likewise a well-formed frame whose leading tag has no registry entry is
discarded with one warning, no handler invoked, state unchanged; both
paths return normally rather than raising. -/
theorem c7_bad_frames_dropped (H : Type) (st : ProtocolState)
    (applyH : ProtocolState → H → List Val → ProtocolState)
    (m : Int → Option (List H)) (raw : String) (t : Int) (rest : List Val)
    (h : m t = none) :
    onMessage m (Frame.malformed raw) = ([], 1)
    ∧ processFrame st applyH m (Frame.malformed raw) = (st, 1)
    ∧ onMessage m (Frame.parsed (Val.num t :: rest)) = ([], 1)
    ∧ processFrame st applyH m (Frame.parsed (Val.num t :: rest))
        = (st, 1) := by
    refine ⟨rfl, rfl, ?_, ?_⟩ <;> simp [onMessage, processFrame, h]

/-- C7 witness: the drop theorem applied at the fresh state with an
empty registry, a malformed frame, and an unhandled tag 42. -/
theorem c7_bad_frames_dropped_witness :
    onMessage (fun _ => (none : Option (List Nat))) (Frame.malformed "x")
        = ([], 1)
    ∧ processFrame protoInit (fun s _ _ => s)
        (fun _ => (none : Option (List Nat))) (Frame.malformed "x")
        = (protoInit, 1)
    ∧ onMessage (fun _ => (none : Option (List Nat)))
        (Frame.parsed (Val.num 42 :: [])) = ([], 1)
    ∧ processFrame protoInit (fun s _ _ => s)
        (fun _ => (none : Option (List Nat)))
        (Frame.parsed (Val.num 42 :: [])) = (protoInit, 1) :=
  c7_bad_frames_dropped Nat protoInit (fun s _ _ => s) (fun _ => none)
    "x" 42 [] rfl
